import Mathlib

/-!
Shallow embedding of azure-storage-azcopy's OAuth token management
(`common/oauthTokenManager.go`) and control-plane REST client
(`e2etest/newe2e_arm_client.go`), with theorems checking the
natural-language specification against the code.

Conventions of the embedding:
* Go `error` results and Go panics are modelled by `GoResult`:
  `.ok` for a nil error, `.err msg` for a non-nil error whose `Error()`
  text is `msg`, and `.fatal msg` for a Go `panic(msg)`.
* Timestamps and durations are integers counting seconds; `time.Until t`
  becomes `t - now`.
* External collaborators (the OS token store, the identity provider's
  SDK constructors, the HTTP transport, JSON parsing of raw bytes) are
  inputs of the embedded functions: an oracle value describes the answer
  the collaborator would give, and the embedding reproduces the source's
  control flow around that answer.
-/

namespace AzCopy

/-- Outcome of a Go call: nil error, non-nil error, or panic. -/
inductive GoResult (α : Type) where
  | ok (val : α)
  | err (msg : String)
  | fatal (msg : String)
deriving DecidableEq, Repr

/-- `common.ApplicationID`: 1st party ApplicationID for AzCopy. -/
def ApplicationID : String := "579a7132-0e58-4d80-b1e1-7a1e2d337859"

/-- `common.DefaultTenantID`. -/
def DefaultTenantID : String := "common"

/-- `common.DefaultActiveDirectoryEndpoint`. -/
def DefaultActiveDirectoryEndpoint : String := "https://login.microsoftonline.com"

/-- `common.TokenRefreshSourceTokenStore`: the internal token-store refresh source. -/
def TokenRefreshSourceTokenStore : String := "tokenstore"

/-- `common.ErrorCodeEnvVarOAuthTokenInfoNotSet`. -/
def ErrorCodeEnvVarOAuthTokenInfoNotSet : String :=
  "environment variable AZCOPY_OAUTH_TOKEN_INFO is not set"

/-- `common.IdentityInfo`: info for MSI. -/
structure IdentityInfo where
  ClientID : String
  ObjectID : String
  MSIResID : String
deriving DecidableEq, Repr

/-- `common.SPNInfo`: info for authenticating with Service Principal Names. -/
structure SPNInfo where
  Secret : String
  CertPath : String
deriving DecidableEq, Repr

/-- `common.OAuthTokenInfo`. The embedded `azcore.TokenCredential` field is
modelled by the Boolean `hasTokenCredential` (whether the interface value is
non-nil); `ExpiresOn` (a `json.Number` in the source) is modelled as the
already-parsed integer number of seconds since the epoch. -/
structure OAuthTokenInfo where
  hasTokenCredential : Bool
  AccessToken : String
  ExpiresOn : Int
  Tenant : String
  ActiveDirectoryEndpoint : String
  TokenRefreshSource : String
  ApplicationID : String
  Identity : Bool
  IdentityInfo : IdentityInfo
  ServicePrincipalName : Bool
  SPNInfo : SPNInfo
  AzCLICred : Bool
  PSCred : Bool
  ClientID : String
deriving DecidableEq, Repr

/-- The zero value of the Go struct `OAuthTokenInfo`, used by the login
entry points that fill in only some fields. -/
def zeroOAuthTokenInfo : OAuthTokenInfo :=
  { hasTokenCredential := false
    AccessToken := ""
    ExpiresOn := 0
    Tenant := ""
    ActiveDirectoryEndpoint := ""
    TokenRefreshSource := ""
    ApplicationID := ""
    Identity := false
    IdentityInfo := ⟨"", "", ""⟩
    ServicePrincipalName := false
    SPNInfo := ⟨"", ""⟩
    AzCLICred := false
    PSCred := false
    ClientID := "" }

/-- `OAuthTokenInfo.Expires()`: with `ExpiresOn` modelled as an already-parsed
integer, the conversion to a timestamp is the identity (the source's fallback
of `-3600` on an unparseable `json.Number` is outside this model's inputs). -/
def OAuthTokenInfo.Expires (t : OAuthTokenInfo) : Int := t.ExpiresOn

/-- Insertion of a key into the Go map `v` of `IdentityInfo.Validate`,
modelled as a duplicate-free list of keys in insertion order: `v[k] = true`
adds `k` only if it is not already a key. -/
def insertKey (m : List String) (k : String) : List String :=
  if k ∈ m then m else m ++ [k]

/-- The key set of the map `v` built by `IdentityInfo.Validate`: each of the
three selectors is inserted as a key when non-empty, so equal non-empty
selector values collapse to a single key. -/
def IdentityInfo.validateKeys (i : IdentityInfo) : List String :=
  let v0 : List String := []
  let v1 := if i.ClientID ≠ "" then insertKey v0 i.ClientID else v0
  let v2 := if i.ObjectID ≠ "" then insertKey v1 i.ObjectID else v1
  let v3 := if i.MSIResID ≠ "" then insertKey v2 i.MSIResID else v2
  v3

/-- `IdentityInfo.Validate`: errors when the map built from the non-empty
selectors has more than one key. `none` models a nil error. -/
def IdentityInfo.Validate (i : IdentityInfo) : Option String :=
  if (i.validateKeys).length > 1 then
    some ("client ID, object ID and MSI resource ID are mutually exclusive")
  else
    none

/-- The identity selector handed to `azidentity.NewManagedIdentityCredential`. -/
inductive ManagedIDKind where
  | clientID (s : String)
  | resourceID (s : String)
deriving DecidableEq, Repr

/-- `OAuthTokenInfo.GetManagedIdentityCredential`, up to the hand-off to the
provider SDK: `.ok id` means the selector `id` (or none) is forwarded to
`azidentity.NewManagedIdentityCredential`; `.err` is returned before any
provider credential is constructed. -/
def OAuthTokenInfo.GetManagedIdentityCredential (c : OAuthTokenInfo) :
    GoResult (Option ManagedIDKind) :=
  if c.IdentityInfo.ClientID ≠ "" then
    .ok (some (.clientID c.IdentityInfo.ClientID))
  else if c.IdentityInfo.MSIResID ≠ "" then
    .ok (some (.resourceID c.IdentityInfo.MSIResID))
  else if c.IdentityInfo.ObjectID ≠ "" then
    .err ("object ID is deprecated and no longer supported for managed identity. Please use client ID or resource ID instead")
  else
    .ok none

/-- The resolution path chosen by `OAuthTokenInfo.GetTokenCredential`. -/
inductive CredentialKind where
  | cachedCredential
  | tokenStore
  | managedIdentity
  | spnCertificate
  | spnSecret
  | azCli
  | psContext
  | deviceCode
deriving DecidableEq, Repr

/-- The dispatch of `OAuthTokenInfo.GetTokenCredential`: which of the
`Get*Credential` helpers the call is routed to, translated check by check
from the source's if-chain. -/
def OAuthTokenInfo.GetTokenCredentialPath (c : OAuthTokenInfo) : CredentialKind :=
  if c.hasTokenCredential then .cachedCredential
  else if c.TokenRefreshSource = TokenRefreshSourceTokenStore then .tokenStore
  else if c.Identity then .managedIdentity
  else if c.ServicePrincipalName then
    (if c.SPNInfo.CertPath ≠ "" then .spnCertificate else .spnSecret)
  else if c.AzCLICred then .azCli
  else if c.PSCred then .psContext
  else .deviceCode

/-- Modelled from the spec's words, for comparison with the source dispatch:
the claimed priority order for a descriptor with no cached credential —
environment-injected token-store source, then managed identity, then service
principal (certificate over secret), then CLI-delegated, then
shell-context-delegated, then interactive device flow. -/
def specResolutionPriority (c : OAuthTokenInfo) : CredentialKind :=
  if c.TokenRefreshSource = TokenRefreshSourceTokenStore then .tokenStore
  else if c.Identity then .managedIdentity
  else if c.ServicePrincipalName then
    (if c.SPNInfo.CertPath ≠ "" then .spnCertificate else .spnSecret)
  else if c.AzCLICred then .azCli
  else if c.PSCred then .psContext
  else .deviceCode

/-! ### TokenStoreCredential (`common/oauthTokenManager.go`, lines 446-496) -/

/-- `common.minimumTokenValidDuration` (`time.Minute * 5`), in seconds. -/
def minimumTokenValidDuration : Int := 5 * 60

/-- `azcore.AccessToken`: the token string and its expiry instant (seconds). -/
structure AccessToken where
  Token : String
  ExpiresOn : Int
deriving DecidableEq, Repr

/-- `common.TokenStoreCredential`: the shared state protected by the
read-write lock (the lock itself is modelled by the trace of lock events a
call produces, not as data). -/
structure TokenStoreCredential where
  token : AccessToken
deriving DecidableEq, Repr

/-- Lock operations of the `sync.RWMutex` in `TokenStoreCredential`. -/
inductive LockEvent where
  | rlock
  | runlock
  | wlock
  | wunlock
deriving DecidableEq, Repr

/-- The answer of the external token store (`tokenStoreCredCache`), an oracle
input of `GetToken`: `HasCachedToken` may fail or report no token,
`LoadToken` may fail, or a token info is loaded. -/
inductive TokenStoreCache where
  | hasErr (msg : String)
  | noToken
  | loadErr (msg : String)
  | token (info : OAuthTokenInfo)
deriving DecidableEq, Repr

/-- Everything observable about one `TokenStoreCredential.GetToken` call:
the returned `(AccessToken, error)` pair, the shared state after the call,
whether the underlying token store was consulted (`HasCachedToken` /
`LoadToken` called), and the sequence of lock operations performed from
entry to return. -/
structure GetTokenResult where
  result : GoResult AccessToken
  after : TokenStoreCredential
  storeQueried : Bool
  lockTrace : List LockEvent
deriving DecidableEq, Repr

/-- `TokenStoreCredential.GetToken`, translated line by line. Fast path: under
`RLock`, when the cached token expires more than `minimumTokenValidDuration`
from now, `return *tsc.token, nil` — note this early return happens before the
`RUnlock` on the next statement and no `defer` covers the read lock, so the
fast path's trace ends without a `.runlock`. Slow path: `RUnlock`, then `Lock`
with a deferred `Unlock`, consult the store, and on success install the loaded
token as the new shared state. -/
def TokenStoreCredential.GetToken (tsc : TokenStoreCredential) (now : Int)
    (cache : TokenStoreCache) : GetTokenResult :=
  if tsc.token.ExpiresOn - now > minimumTokenValidDuration then
    { result := .ok tsc.token
      after := tsc
      storeQueried := false
      lockTrace := [.rlock] }
  else
    let slowTrace : List LockEvent := [.rlock, .runlock, .wlock, .wunlock]
    match cache with
    | .hasErr m =>
        { result := .err ("no cached token found in Token Store Mode(SE), " ++ m)
          after := tsc
          storeQueried := true
          lockTrace := slowTrace }
    | .noToken =>
        { result := .err ("no cached token found in Token Store Mode(SE), <nil>")
          after := tsc
          storeQueried := true
          lockTrace := slowTrace }
    | .loadErr m =>
        { result := .err ("get cached token failed in Token Store Mode(SE), " ++ m)
          after := tsc
          storeQueried := true
          lockTrace := slowTrace }
    | .token info =>
        let newTok : AccessToken := ⟨info.AccessToken, info.Expires⟩
        { result := .ok newTok
          after := ⟨newTok⟩
          storeQueried := true
          lockTrace := slowTrace }

/-! ### Environment-injected token flow (`common/oauthTokenManager.go`, lines 95-349) -/

/-- The observable content of the `AZCOPY_OAUTH_TOKEN_INFO` environment
variable: unset/empty, set to bytes that `json.Unmarshal` rejects (with the
given error text), or set to bytes that parse to the given token info. -/
inductive EnvPayload where
  | empty
  | malformed (jsonErr : String)
  | wellFormed (info : OAuthTokenInfo)
deriving DecidableEq, Repr

/-- `common.IsErrorEnvVarOAuthTokenInfoNotSet`: substring containment of the
well-known error code in the error text (`strings.Contains`). -/
def IsErrorEnvVarOAuthTokenInfoNotSet (msg : String) : Bool :=
  (msg.splitOn ErrorCodeEnvVarOAuthTokenInfoNotSet).length > 1

/-- `UserOAuthTokenManager.getTokenInfoFromEnvVar`: read the variable; when
empty, fail with the not-set error code. Otherwise the variable is cleared
immediately — before `jsonToTokenInfo` runs — so the returned environment
state is `.empty` on the parse-failure path too. A parsed payload whose
refresh source is not the token-store constant hits
`panic("Invalid Token Refresh Source")`, modelled as `.fatal`. The result's
first component is the environment variable's value after the call. -/
def getTokenInfoFromEnvVar (env : EnvPayload) :
    EnvPayload × GoResult OAuthTokenInfo :=
  match env with
  | .empty => (.empty, .err ErrorCodeEnvVarOAuthTokenInfoNotSet)
  | .malformed jsonErr =>
      (.empty, .err ("get token from environment variable failed to unmarshal token, " ++ jsonErr))
  | .wellFormed info =>
      if info.TokenRefreshSource ≠ TokenRefreshSourceTokenStore then
        (.empty, .fatal ("Invalid Token Refresh Source"))
      else
        (.empty, .ok info)

/-- `UserOAuthTokenManager.getCachedTokenInfo` returns `(nil, nil)` in the
current source (persistence is stubbed out). -/
def getCachedTokenInfo : Option OAuthTokenInfo × Option String := (none, none)

/-- `UserOAuthTokenManager.GetTokenInfo`, as a function of the manager's
`stashedInfo` field and the environment variable. Returns the stashed info
after the call, the environment variable after the call, and the
`(*OAuthTokenInfo, error)` result (with `.fatal` for a propagated panic). -/
def GetTokenInfo (stashedInfo : Option OAuthTokenInfo) (env : EnvPayload) :
    Option OAuthTokenInfo × EnvPayload × GoResult OAuthTokenInfo :=
  match stashedInfo with
  | some t => (some t, env, .ok t)
  | none =>
      let r := getTokenInfoFromEnvVar env
      match r.2 with
      | .fatal m => (none, r.1, .fatal m)
      | .err m =>
          if IsErrorEnvVarOAuthTokenInfoNotSet m then
            -- the cached-token branch: getCachedTokenInfo yields (nil, nil),
            -- so tokenInfo is nil and the invalid-state check fires
            match getCachedTokenInfo with
            | (_, some cacheErr) => (none, r.1, .err cacheErr)
            | (some info, none) =>
                if info.AccessToken = "" then
                  (none, r.1, .err ("invalid state, cannot get valid token info"))
                else
                  (some info, r.1, .ok info)
            | (none, none) =>
                (none, r.1, .err ("invalid state, cannot get valid token info"))
          else
            (none, r.1, .err m)
      | .ok info =>
          if info.AccessToken = "" then
            (none, r.1, .err ("invalid state, cannot get valid token info"))
          else
            (some info, r.1, .ok info)

/-! ### Login entry points (`common/oauthTokenManager.go`, lines 129-269) -/

/-- The observable outcome of one login entry-point call on a fresh manager
(`stashedInfo` initially nil): the `stashedInfo` field after the call, how
many validating token requests (`tc.GetToken` probes) were performed, and the
returned error. -/
structure LoginOutcome where
  stashed : Option OAuthTokenInfo
  probeCount : Nat
  err : Option String
deriving DecidableEq, Repr

/-- `UserOAuthTokenManager.validateAndPersistLogin`. The two external steps —
`GetTokenCredential` (SDK constructors, certificate file reads) and the probe
`tc.GetToken` (a network round-trip) — are oracles: `credResolves` and
`probeSucceeds` say whether each would succeed. Defaults for tenant and
endpoint are applied first; the credential is stashed only after a successful
probe. -/
def validateAndPersistLogin (info : OAuthTokenInfo)
    (credResolves probeSucceeds : Bool) : LoginOutcome :=
  let info := if info.Tenant = "" then { info with Tenant := DefaultTenantID } else info
  let info :=
    if info.ActiveDirectoryEndpoint = "" then
      { info with ActiveDirectoryEndpoint := DefaultActiveDirectoryEndpoint }
    else info
  if ¬credResolves then
    { stashed := none, probeCount := 0, err := some ("failed to get token credential") }
  else if ¬probeSucceeds then
    { stashed := none, probeCount := 1, err := some ("failed to acquire token") }
  else
    { stashed := some info, probeCount := 1, err := none }

/-- `UserOAuthTokenManager.AzCliLogin`. -/
def AzCliLogin (tenantID : String) (credResolves probeSucceeds : Bool) : LoginOutcome :=
  validateAndPersistLogin
    { zeroOAuthTokenInfo with AzCLICred := true, Tenant := tenantID }
    credResolves probeSucceeds

/-- `UserOAuthTokenManager.PSContextToken`. -/
def PSContextToken (tenantID : String) (credResolves probeSucceeds : Bool) : LoginOutcome :=
  validateAndPersistLogin
    { zeroOAuthTokenInfo with PSCred := true, Tenant := tenantID }
    credResolves probeSucceeds

/-- `UserOAuthTokenManager.MSILogin`: validates the identity info first, then
delegates to `validateAndPersistLogin`. -/
def MSILogin (identityInfo : IdentityInfo) (credResolves probeSucceeds : Bool) :
    LoginOutcome :=
  match identityInfo.Validate with
  | some e => { stashed := none, probeCount := 0, err := some e }
  | none =>
      validateAndPersistLogin
        { zeroOAuthTokenInfo with Identity := true, IdentityInfo := identityInfo }
        credResolves probeSucceeds

/-- `UserOAuthTokenManager.SecretLogin`. -/
def SecretLogin (tenantID activeDirectoryEndpoint secret applicationID : String)
    (credResolves probeSucceeds : Bool) : LoginOutcome :=
  validateAndPersistLogin
    { zeroOAuthTokenInfo with
        ServicePrincipalName := true
        Tenant := tenantID
        ActiveDirectoryEndpoint := activeDirectoryEndpoint
        ApplicationID := applicationID
        SPNInfo := ⟨secret, ""⟩ }
    credResolves probeSucceeds

/-- `UserOAuthTokenManager.CertLogin`: applies tenant/endpoint defaults itself,
resolves the certificate path to an absolute path (`filepath.Abs`, modelled by
the oracle function `abs`), then delegates to `validateAndPersistLogin`. -/
def CertLogin (tenantID activeDirectoryEndpoint certPath certPass applicationID : String)
    (abs : String → String) (credResolves probeSucceeds : Bool) : LoginOutcome :=
  let tenantID := if tenantID = "" then DefaultTenantID else tenantID
  let activeDirectoryEndpoint :=
    if activeDirectoryEndpoint = "" then DefaultActiveDirectoryEndpoint
    else activeDirectoryEndpoint
  validateAndPersistLogin
    { zeroOAuthTokenInfo with
        ServicePrincipalName := true
        Tenant := tenantID
        ActiveDirectoryEndpoint := activeDirectoryEndpoint
        ApplicationID := applicationID
        SPNInfo := ⟨certPass, abs certPath⟩ }
    credResolves probeSucceeds

/-- `UserOAuthTokenManager.UserLogin` (interactive device code): constructs a
`DeviceCodeCredential` (oracle `deviceCodeCredOk`) and stashes the credential
info immediately — no validating token request is made on this path. -/
def UserLogin (tenantID activeDirectoryEndpoint : String)
    (deviceCodeCredOk : Bool) : LoginOutcome :=
  let tenantID := if tenantID = "" then DefaultTenantID else tenantID
  let activeDirectoryEndpoint :=
    if activeDirectoryEndpoint = "" then DefaultActiveDirectoryEndpoint
    else activeDirectoryEndpoint
  if ¬deviceCodeCredOk then
    { stashed := none, probeCount := 0, err := some ("failed to create device code credential") }
  else
    { stashed := some
        { zeroOAuthTokenInfo with
            hasTokenCredential := true
            Tenant := tenantID
            ActiveDirectoryEndpoint := activeDirectoryEndpoint
            ApplicationID := ApplicationID }
      probeCount := 0
      err := none }

/-! ### ARM client (`e2etest/newe2e_arm_client.go`, lines 119-163) -/

/-- Result of `AccessToken.FreshToken()` as the source consumes it: the token
string and the error value, both of which the caller receives (the error is
then ignored by `PerformRequest`). -/
structure FreshTokenResult where
  token : String
  tokenErr : Option String
deriving DecidableEq, Repr

/-- The headers `PerformRequest` sets on the outgoing request. -/
structure ARMRequestHeaders where
  authorization : String
  contentType : String
  accept : String
deriving DecidableEq, Repr

/-- Reading and JSON-decoding the response body: `io.ReadAll` may fail; a read
body has raw text and either decodes into the target type `α` or fails with a
JSON error. -/
inductive BodyRead (α : Type) where
  | readError (msg : String)
  | content (text : String) (parsed : Except String α)
deriving Repr

/-- An HTTP response as `PerformRequest` observes it: status code, the value
of the `Azure-AsyncOperation` header (empty when absent), and the body. -/
structure ARMResponse (α : Type) where
  statusCode : Nat
  azureAsyncOperation : String
  body : BodyRead α
deriving Repr

/-- Result of `client.Do`: a transport error or a response. -/
inductive SendResult (α : Type) where
  | netError (msg : String)
  | response (resp : ARMResponse α)
deriving Repr

/-- Everything observable about one `ARMClient.PerformRequest` call: the
headers of the request handed to `client.Do` (none when no send was
attempted), the value deserialized into `target` at this layer, and the
returned `(*ARMAsyncResponse, error)` pair (`β` is the async-response handle
type). -/
structure PerformRequestResult (α β : Type) where
  sentHeaders : Option ARMRequestHeaders
  targetWritten : Option α
  armResp : Option β
  err : Option String
deriving Repr

/-- `ARMClient.PerformRequest`. Inputs: the outcome of `CreateRequest`
(`createErr`), of `c.OAuth.FreshToken()` (`fresh` — its error component is
dropped on the floor by the source), the transport (`send`, a function of the
headers the request carries), and `ResolveAzureAsyncOperation` (`resolve`,
applied to the `Azure-AsyncOperation` header value; its `(handle, error)`
answer is returned verbatim in the 202 case). -/
def PerformRequest {α β : Type} (createErr : Option String)
    (fresh : FreshTokenResult) (send : ARMRequestHeaders → SendResult α)
    (resolve : String → Option β × Option String) : PerformRequestResult α β :=
  match createErr with
  | some m =>
      { sentHeaders := none, targetWritten := none, armResp := none
        err := some ("failed to prepare request: " ++ m) }
  | none =>
      let hdrs : ARMRequestHeaders :=
        { authorization := "Bearer " ++ fresh.token
          contentType := "application/json; charset=utf-8"
          accept := "application/json; charset=utf-8" }
      match send hdrs with
      | .netError m =>
          { sentHeaders := some hdrs, targetWritten := none, armResp := none
            err := some ("failed to send request: " ++ m) }
      | .response resp =>
          if resp.statusCode = 200 ∨ resp.statusCode = 201 then
            match resp.body with
            | .readError m =>
                { sentHeaders := some hdrs, targetWritten := none, armResp := none
                  err := some ("failed to read response body (resp code 200): " ++ m) }
            | .content _ (.error m) =>
                { sentHeaders := some hdrs, targetWritten := none, armResp := none
                  err := some ("failed to parse response body: " ++ m) }
            | .content _ (.ok t) =>
                { sentHeaders := some hdrs, targetWritten := some t, armResp := none
                  err := none }
          else if resp.statusCode = 202 then
            let r := resolve resp.azureAsyncOperation
            { sentHeaders := some hdrs, targetWritten := none, armResp := r.1
              err := r.2 }
          else
            match resp.body with
            | .readError m =>
                { sentHeaders := some hdrs, targetWritten := none, armResp := none
                  err := some ("failed to read response body (resp code " ++ toString resp.statusCode ++ "): " ++ m) }
            | .content text _ =>
                { sentHeaders := some hdrs, targetWritten := none, armResp := none
                  err := some ("failed to get access (resp code " ++ toString resp.statusCode ++ "): " ++ text) }

/-! ### Theorems -/

/-- C1: a `TokenStoreCredential.GetToken` call whose cached token expires more
than 5 minutes after the current time returns the cached token unchanged
without consulting the underlying token store; a call whose cached token
expires within 5 minutes (or has expired) consults the token store, and when
the store holds a token, the reloaded token becomes the new shared state and
is returned. -/
theorem TokenStoreCredential.getToken_refresh_policy
    (tsc₁ : TokenStoreCredential) (now₁ : Int) (cache₁ : TokenStoreCache)
    (tsc₂ : TokenStoreCredential) (now₂ : Int) (cache₂ : TokenStoreCache)
    (info : OAuthTokenInfo)
    (h₁ : tsc₁.token.ExpiresOn - now₁ > minimumTokenValidDuration)
    (h₂ : tsc₂.token.ExpiresOn - now₂ ≤ minimumTokenValidDuration) :
    ((tsc₁.GetToken now₁ cache₁).result = .ok tsc₁.token ∧
      (tsc₁.GetToken now₁ cache₁).after = tsc₁ ∧
      (tsc₁.GetToken now₁ cache₁).storeQueried = false) ∧
    ((tsc₂.GetToken now₂ cache₂).storeQueried = true ∧
      (tsc₂.GetToken now₂ (.token info)).result = .ok ⟨info.AccessToken, info.Expires⟩ ∧
      (tsc₂.GetToken now₂ (.token info)).after.token = ⟨info.AccessToken, info.Expires⟩) := by
  have hn : ¬ (tsc₂.token.ExpiresOn - now₂ > minimumTokenValidDuration) := by omega
  refine ⟨?_, ?_⟩
  · simp [TokenStoreCredential.GetToken, if_pos h₁]
  · cases cache₂ <;> simp [TokenStoreCredential.GetToken, hn]

/-- C1 witness: concrete fast-path and slow-path calls. -/
theorem TokenStoreCredential.getToken_refresh_policy_spot_check :
    ((TokenStoreCredential.GetToken ⟨⟨"cached", 1000⟩⟩ 0 .noToken).result =
        .ok ⟨"cached", 1000⟩ ∧
      (TokenStoreCredential.GetToken ⟨⟨"cached", 1000⟩⟩ 0 .noToken).after = ⟨⟨"cached", 1000⟩⟩ ∧
      (TokenStoreCredential.GetToken ⟨⟨"cached", 1000⟩⟩ 0 .noToken).storeQueried = false) ∧
    ((TokenStoreCredential.GetToken ⟨⟨"old", 100⟩⟩ 0 (.hasErr ("e"))).storeQueried = true ∧
      (TokenStoreCredential.GetToken ⟨⟨"old", 100⟩⟩ 0
          (.token { zeroOAuthTokenInfo with AccessToken := "new", ExpiresOn := 5000 })).result =
        .ok ⟨{ zeroOAuthTokenInfo with AccessToken := "new", ExpiresOn := 5000 }.AccessToken,
             { zeroOAuthTokenInfo with AccessToken := "new", ExpiresOn := 5000 }.Expires⟩ ∧
      (TokenStoreCredential.GetToken ⟨⟨"old", 100⟩⟩ 0
          (.token { zeroOAuthTokenInfo with AccessToken := "new", ExpiresOn := 5000 })).after.token =
        ⟨{ zeroOAuthTokenInfo with AccessToken := "new", ExpiresOn := 5000 }.AccessToken,
         { zeroOAuthTokenInfo with AccessToken := "new", ExpiresOn := 5000 }.Expires⟩) :=
  TokenStoreCredential.getToken_refresh_policy ⟨⟨"cached", 1000⟩⟩ 0 .noToken
    ⟨⟨"old", 100⟩⟩ 0 (.hasErr ("e"))
    { zeroOAuthTokenInfo with AccessToken := "new", ExpiresOn := 5000 }
    (by decide) (by decide)

/-- C2: on the fast path (cached expiry more than 5 minutes away) the
`return *tsc.token, nil` statement runs before the `RUnlock` and no defer
covers the read lock, so the call returns with one more read-lock
acquisition than release — the shared read lock is NOT released before the
cached token is returned. -/
theorem TokenStoreCredential.getToken_fast_path_retains_read_lock :
    (TokenStoreCredential.GetToken ⟨⟨"tok", 1000⟩⟩ 0 .noToken).lockTrace = [.rlock] ∧
    (TokenStoreCredential.GetToken ⟨⟨"tok", 1000⟩⟩ 0 .noToken).lockTrace.count .runlock <
      (TokenStoreCredential.GetToken ⟨⟨"tok", 1000⟩⟩ 0 .noToken).lockTrace.count .rlock := by
  decide

/-- C3: counterexample — two selectors set to the same non-empty string pass
validation, because the source counts distinct map keys, not set fields:
`Validate ⟨"x", "x", ""⟩` returns no error although both the client ID and
the object ID are set to a non-empty string. -/
theorem IdentityInfo.validate_accepts_two_equal_selectors :
    IdentityInfo.Validate ⟨"x", "x", ""⟩ = none ∧
    ("x" : String) ≠ "" := by
  decide

/-- C3 (amended): `Validate` returns no error iff the non-empty values among
client ID, object ID and MSI resource ID are pairwise equal (at most one
distinct non-empty value); in particular more than one distinct non-empty
selector fails, and selectors sharing one value pass. -/
theorem IdentityInfo.validate_none_iff_pairwise_equal (i : IdentityInfo) :
    i.Validate = none ↔
      ([i.ClientID, i.ObjectID, i.MSIResID].filter (fun s => s ≠ "")).Pairwise
        (fun a b => a = b) := by
  by_cases hc : i.ClientID = "" <;> by_cases ho : i.ObjectID = "" <;>
    by_cases hm : i.MSIResID = "" <;>
    by_cases hco : i.ClientID = i.ObjectID <;>
    by_cases hcm : i.ClientID = i.MSIResID <;>
    by_cases hom : i.ObjectID = i.MSIResID <;>
    simp_all [IdentityInfo.Validate, IdentityInfo.validateKeys, insertKey,
      List.pairwise_cons, eq_comm]

/-- C4: counterexample — a managed-identity descriptor whose only non-empty
selector is the object ID is NOT rejected at validation time:
`Validate ⟨"", "oid", ""⟩` returns no error. -/
theorem IdentityInfo.validate_object_id_only_passes :
    IdentityInfo.Validate ⟨"", "oid", ""⟩ = none ∧
    ("oid" : String) ≠ "" := by
  decide

/-- C4 (amended): a descriptor whose only non-empty selector is the object ID
passes validation; the object-id selection is rejected later, at credential
resolution, where `GetManagedIdentityCredential` returns the permanent
deprecation error before constructing any provider credential. -/
theorem OAuthTokenInfo.object_id_rejected_at_resolution (c : OAuthTokenInfo)
    (hc : c.IdentityInfo.ClientID = "") (hm : c.IdentityInfo.MSIResID = "")
    (ho : c.IdentityInfo.ObjectID ≠ "") :
    c.IdentityInfo.Validate = none ∧
    c.GetManagedIdentityCredential =
      .err ("object ID is deprecated and no longer supported for managed identity. Please use client ID or resource ID instead") := by
  constructor
  · simp [IdentityInfo.Validate, IdentityInfo.validateKeys, insertKey, hc, hm, ho]
  · simp [OAuthTokenInfo.GetManagedIdentityCredential, hc, hm, ho]

/-- C4 witness: concrete object-ID-only descriptor. -/
theorem OAuthTokenInfo.object_id_rejected_at_resolution_spot_check :
    ({ zeroOAuthTokenInfo with IdentityInfo := ⟨"", "oid", ""⟩ } :
        OAuthTokenInfo).IdentityInfo.Validate = none ∧
    ({ zeroOAuthTokenInfo with IdentityInfo := ⟨"", "oid", ""⟩ } :
        OAuthTokenInfo).GetManagedIdentityCredential =
      .err ("object ID is deprecated and no longer supported for managed identity. Please use client ID or resource ID instead") :=
  OAuthTokenInfo.object_id_rejected_at_resolution _ (by decide) (by decide) (by decide)

/-- C5: counterexample — the interactive device-code entry point (`UserLogin`)
stashes the constructed credential as active without performing any
validating token request: with a successful device-code constructor, the
outcome has a stashed credential, zero token probes, and no error. -/
theorem UserLogin_stashes_without_probe :
    (UserLogin ("") ("") true).probeCount = 0 ∧
    (UserLogin ("") ("") true).stashed.isSome = true ∧
    (UserLogin ("") ("") true).err = none := by
  decide

/-- C5 (amended): the CLI-delegated, shell-context-delegated,
managed-identity, service-principal secret and service-principal certificate
entry points each perform one validating token request once the credential
resolves, stash the credential only if that acquisition succeeded, and return
a single error (stashing nothing) when any step fails; the interactive
device-code entry point instead stashes the constructed credential with no
validating token request. -/
theorem login_entry_points_probe_and_stash
    (tenant ep secret certPath certPass appID : String) (abs : String → String)
    (ii : IdentityInfo) (c p d : Bool) :
    ((AzCliLogin tenant c p).stashed.isSome = (c && p) ∧
      (AzCliLogin tenant c p).probeCount = (if c then 1 else 0) ∧
      (AzCliLogin tenant c p).err.isSome = !(c && p)) ∧
    ((PSContextToken tenant c p).stashed.isSome = (c && p) ∧
      (PSContextToken tenant c p).probeCount = (if c then 1 else 0) ∧
      (PSContextToken tenant c p).err.isSome = !(c && p)) ∧
    ((MSILogin ii c p).stashed.isSome = (ii.Validate.isNone && c && p) ∧
      (MSILogin ii c p).probeCount = (if ii.Validate.isNone && c then 1 else 0) ∧
      (MSILogin ii c p).err.isSome = !(ii.Validate.isNone && c && p)) ∧
    ((SecretLogin tenant ep secret appID c p).stashed.isSome = (c && p) ∧
      (SecretLogin tenant ep secret appID c p).probeCount = (if c then 1 else 0) ∧
      (SecretLogin tenant ep secret appID c p).err.isSome = !(c && p)) ∧
    ((CertLogin tenant ep certPath certPass appID abs c p).stashed.isSome = (c && p) ∧
      (CertLogin tenant ep certPath certPass appID abs c p).probeCount = (if c then 1 else 0) ∧
      (CertLogin tenant ep certPath certPass appID abs c p).err.isSome = !(c && p)) ∧
    ((UserLogin tenant ep d).stashed.isSome = d ∧
      (UserLogin tenant ep d).probeCount = 0 ∧
      (UserLogin tenant ep d).err.isSome = !d) := by
  cases hv : ii.Validate <;> cases c <;> cases p <;> cases d <;>
    simp [AzCliLogin, PSContextToken, MSILogin, SecretLogin, CertLogin, UserLogin,
      validateAndPersistLogin, hv]

/-- C6: counterexample — a payload that fails to parse DOES cause the
variable to be cleared: on a malformed payload, `getTokenInfoFromEnvVar`
returns with the environment variable cleared and an unmarshal error. -/
theorem getTokenInfoFromEnvVar_clears_on_parse_failure :
    getTokenInfoFromEnvVar (.malformed ("unexpected end of JSON input")) =
      (.empty,
        .err ("get token from environment variable failed to unmarshal token, unexpected end of JSON input")) := by
  rfl

/-- C6 (amended): the variable is read once and cleared immediately after a
successful non-empty read, before the payload is parsed — so it is cleared
whether or not the payload parses. -/
theorem getTokenInfoFromEnvVar_clears_after_read (env : EnvPayload)
    (h : env ≠ .empty) : (getTokenInfoFromEnvVar env).1 = .empty := by
  cases env with
  | empty => cases h rfl
  | malformed e => rfl
  | wellFormed info =>
      by_cases hr : info.TokenRefreshSource ≠ TokenRefreshSourceTokenStore <;>
        simp [getTokenInfoFromEnvVar, hr]

/-- C6 witness: a concrete non-empty malformed payload is cleared. -/
theorem getTokenInfoFromEnvVar_clears_after_read_spot_check :
    (EnvPayload.malformed ("bad") ≠ .empty) ∧
    (getTokenInfoFromEnvVar (.malformed ("bad"))).1 = .empty :=
  ⟨by decide, getTokenInfoFromEnvVar_clears_after_read (.malformed ("bad")) (by decide)⟩

/-- C7: a well-formed environment-injected payload whose declared refresh
source differs from the internal token-store constant makes `GetTokenInfo`
fail with the unrecoverable invariant-violation panic
`Invalid Token Refresh Source` (and nothing is stashed). -/
theorem GetTokenInfo_bad_refresh_source_is_fatal (info : OAuthTokenInfo)
    (h : info.TokenRefreshSource ≠ TokenRefreshSourceTokenStore) :
    (GetTokenInfo none (.wellFormed info)).2.2 = .fatal ("Invalid Token Refresh Source") ∧
    (GetTokenInfo none (.wellFormed info)).1 = none := by
  simp [GetTokenInfo, getTokenInfoFromEnvVar, h]

/-- C7 witness: a concrete payload declaring refresh source `other`. -/
theorem GetTokenInfo_bad_refresh_source_is_fatal_spot_check :
    (GetTokenInfo none
        (.wellFormed { zeroOAuthTokenInfo with TokenRefreshSource := "other" })).2.2 =
      .fatal ("Invalid Token Refresh Source") ∧
    (GetTokenInfo none
        (.wellFormed { zeroOAuthTokenInfo with TokenRefreshSource := "other" })).1 = none :=
  GetTokenInfo_bad_refresh_source_is_fatal
    { zeroOAuthTokenInfo with TokenRefreshSource := "other" } (by decide)

/-- C8: for a descriptor with no cached credential capability, the dispatch
of `GetTokenCredential` equals the spec's priority order — token-store
source, then managed identity, then service principal (certificate over
secret), then CLI-delegated, then shell-context-delegated, then the
interactive device flow as fallback — choosing exactly one path. -/
theorem GetTokenCredentialPath_matches_spec_priority (c : OAuthTokenInfo)
    (h : c.hasTokenCredential = false) :
    c.GetTokenCredentialPath = specResolutionPriority c := by
  simp [OAuthTokenInfo.GetTokenCredentialPath, specResolutionPriority, h]

/-- C8 witness: the zero descriptor resolves to the device-code fallback on
both sides. -/
theorem GetTokenCredentialPath_matches_spec_priority_spot_check :
    zeroOAuthTokenInfo.GetTokenCredentialPath = specResolutionPriority zeroOAuthTokenInfo :=
  GetTokenCredentialPath_matches_spec_priority zeroOAuthTokenInfo (by decide)

/-- C9: response handling of `ARMClient.PerformRequest` — a 200/201 response
whose body deserializes writes the target and returns `(nil, nil)`; a 202
response extracts the poll location from the `Azure-AsyncOperation` header and
returns `ResolveAzureAsyncOperation`'s answer verbatim; any other status
fails with an error embedding the status code and the raw body text. -/
theorem PerformRequest_response_cases {α β : Type}
    (fresh : FreshTokenResult) (resolve : String → Option β × Option String)
    (r₁ r₂ r₃ : ARMResponse α) (text₁ text₃ : String) (t₁ : α) (p₃ : Except String α)
    (h₁ : r₁.statusCode = 200 ∨ r₁.statusCode = 201)
    (hb₁ : r₁.body = .content text₁ (.ok t₁))
    (h₂ : r₂.statusCode = 202)
    (h₃ : ¬(r₃.statusCode = 200 ∨ r₃.statusCode = 201 ∨ r₃.statusCode = 202))
    (hb₃ : r₃.body = .content text₃ p₃) :
    (PerformRequest none fresh (fun _ => .response r₁) resolve =
      { sentHeaders := some ⟨"Bearer " ++ fresh.token, "application/json; charset=utf-8",
          "application/json; charset=utf-8"⟩
        targetWritten := some t₁
        armResp := none
        err := none }) ∧
    (PerformRequest none fresh (fun _ => .response r₂) resolve =
      { sentHeaders := some ⟨"Bearer " ++ fresh.token, "application/json; charset=utf-8",
          "application/json; charset=utf-8"⟩
        targetWritten := none
        armResp := (resolve r₂.azureAsyncOperation).1
        err := (resolve r₂.azureAsyncOperation).2 }) ∧
    ((PerformRequest none fresh (fun _ => .response r₃) resolve).err =
      some ("failed to get access (resp code " ++ toString r₃.statusCode ++ "): " ++ text₃)) := by
  have h₂n : ¬(r₂.statusCode = 200 ∨ r₂.statusCode = 201) := by omega
  have h₃n : ¬(r₃.statusCode = 200 ∨ r₃.statusCode = 201) := by
    intro hx
    exact h₃ (hx.elim Or.inl (fun hx2 => Or.inr (Or.inl hx2)))
  have h₃n2 : r₃.statusCode ≠ 202 := by
    intro hx
    exact h₃ (Or.inr (Or.inr hx))
  refine ⟨?_, ?_, ?_⟩
  · simp only [PerformRequest, if_pos h₁, hb₁]
  · simp only [PerformRequest, if_neg h₂n, if_pos h₂]
  · simp only [PerformRequest, if_neg h₃n, if_neg h₃n2, hb₃]

/-- C9 witness: concrete 201, 202 and 503 responses. -/
theorem PerformRequest_response_cases_spot_check :
    (PerformRequest (α := Nat) (β := Nat) none ⟨"TKN", none⟩
        (fun _ => .response ⟨201, "", .content ("7") (.ok 7)⟩)
        (fun _ => (some 1, none)) =
      { sentHeaders := some ⟨"Bearer TKN", "application/json; charset=utf-8",
          "application/json; charset=utf-8"⟩
        targetWritten := some 7
        armResp := none
        err := none }) ∧
    (PerformRequest (α := Nat) (β := Nat) none ⟨"TKN", none⟩
        (fun _ => .response ⟨202, "https://poll.example", .content ("") (.error ("no"))⟩)
        (fun _ => (some 1, none)) =
      { sentHeaders := some ⟨"Bearer TKN", "application/json; charset=utf-8",
          "application/json; charset=utf-8"⟩
        targetWritten := none
        armResp := ((fun (_ : String) => ((some 1 : Option Nat), (none : Option String)))
          (ARMResponse.azureAsyncOperation (α := Nat)
            ⟨202, "https://poll.example", .content ("") (.error ("no"))⟩)).1
        err := ((fun (_ : String) => ((some 1 : Option Nat), (none : Option String)))
          (ARMResponse.azureAsyncOperation (α := Nat)
            ⟨202, "https://poll.example", .content ("") (.error ("no"))⟩)).2 }) ∧
    ((PerformRequest (α := Nat) (β := Nat) none ⟨"TKN", none⟩
        (fun _ => .response ⟨503, "", .content ("Server busy") (.error ("no"))⟩)
        (fun _ => (some 1, none))).err =
      some ("failed to get access (resp code " ++ toString
        (ARMResponse.statusCode (α := Nat) ⟨503, "", .content ("Server busy") (.error ("no"))⟩)
        ++ "): " ++ "Server busy")) :=
  PerformRequest_response_cases ⟨"TKN", none⟩ (fun _ => (some 1, none))
    ⟨201, "", .content ("7") (.ok 7)⟩
    ⟨202, "https://poll.example", .content ("") (.error ("no"))⟩
    ⟨503, "", .content ("Server busy") (.error ("no"))⟩
    ("7") ("Server busy") 7 (.error ("no"))
    (Or.inr rfl) rfl rfl (by decide) rfl

/-- C10: `ARMClient.PerformRequest` ignores the error component of
`FreshToken()`: the outcome with a token-acquisition error equals the outcome
without it, and the request is still sent with the Authorization header set
to `Bearer ` concatenated with whatever token string was returned. -/
theorem PerformRequest_ignores_fresh_token_error {α β : Type}
    (tok e : String) (send : ARMRequestHeaders → SendResult α)
    (resolve : String → Option β × Option String) :
    PerformRequest none ⟨tok, some e⟩ send resolve =
      PerformRequest none ⟨tok, none⟩ send resolve ∧
    (PerformRequest none ⟨tok, some e⟩ send resolve).sentHeaders =
      some ⟨"Bearer " ++ tok, "application/json; charset=utf-8",
        "application/json; charset=utf-8"⟩ := by
  refine ⟨rfl, ?_⟩
  show (match send ⟨"Bearer " ++ tok, "application/json; charset=utf-8",
      "application/json; charset=utf-8"⟩ with
    | .netError _ => _
    | .response _ => _ : PerformRequestResult α β).sentHeaders = _
  cases hs : send ⟨"Bearer " ++ tok, "application/json; charset=utf-8",
      "application/json; charset=utf-8"⟩ with
  | netError m => rfl
  | response r =>
      by_cases hr1 : r.statusCode = 200 ∨ r.statusCode = 201
      · cases hb : r.body with
        | readError m => simp [hr1, hb]
        | content t p => cases p <;> simp [hr1, hb]
      · by_cases hr2 : r.statusCode = 202
        · simp [hr1, hr2]
        · cases hb : r.body <;> simp [hr1, hr2, hb]

end AzCopy
